import Mathlib

/-!
Shallow embedding of the signal-reconciliation engine of the `vibe`
repository: the task-status precedence resolver (`src/state/tasks.rs`),
the activity-state detector (`src/external/claude_activity.rs`),
the PR-lookup cache (`src/state/worktrees.rs`) and the session merge
(`src/state/sessions.rs`), together with theorems settling the frozen
claims about them.

Modelling conventions:
* Rust `String` is Lean `String`; `Option<T>` is `Option`.
* `std::time::Instant` values are `Nat` seconds on a monotonic clock;
  `Instant::elapsed().as_secs()` at clock reading `now` is `now - t`
  (truncated `Nat` subtraction, matching the non-negative monotonic clock).
* `u64::saturating_sub` is exactly `Nat` subtraction.
* `f64` fields (`used_percentage`, `context_percentage`) are modelled as
  `Rat`: the engine never computes with them, it only copies them.
* `HashMap<String, V>` is an association list with replacing insert;
  the read-only update-times map of the activity tracker is a function
  `String → Option Nat`.
-/

namespace Vibe

/-- `TaskStatus` from `src/state/tasks.rs`. -/
inductive TaskStatus where
  | Backlog
  | Todo
  | Inprogress
  | Inreview
  | Done
  | Cancelled
deriving DecidableEq, Repr

/-- `TaskStatus::from_linear_state_type` from `src/state/tasks.rs`. -/
def TaskStatus.from_linear_state_type (state_type : String) : TaskStatus :=
  if state_type = "backlog" then TaskStatus.Backlog
  else if state_type = "unstarted" then TaskStatus.Todo
  else if state_type = "started" then TaskStatus.Inprogress
  else if state_type = "completed" then TaskStatus.Done
  else if state_type = "canceled" ∨ state_type = "cancelled" then TaskStatus.Cancelled
  else TaskStatus.Backlog

/-- `Review` from `src/external/gh.rs` (author flattened to the login). -/
structure Review where
  state : String
  author_login : String
deriving DecidableEq, Repr

/-- `StatusCheck` from `src/external/gh.rs`. -/
structure StatusCheck where
  typename : String
  conclusion : Option String
  status : Option String
deriving DecidableEq, Repr

/-- `BranchPrInfo` from `src/external/gh.rs`. -/
structure BranchPrInfo where
  number : Int
  url : String
  state : String
  is_draft : Bool
  review_decision : Option String
  status_check_rollup : Option (List StatusCheck)
  mergeable : Option String
  reviews : List Review
deriving DecidableEq, Repr

/-- `LinearIssueStatus` from `src/external/linear.rs`. -/
structure LinearIssueStatus where
  identifier : String
  state_type : String
  state_name : String
deriving DecidableEq, Repr

/-- Modelled from the spec: `WorktreeInfo` is declared in the `worktrunk`
module, which is not part of the provided sources; the spec gives its shape
as `{ branch: string, is_current: bool }`. -/
structure WorktreeInfo where
  branch : String
  is_current : Bool
deriving DecidableEq, Repr

/-- `Task` from `src/state/tasks.rs`. -/
structure Task where
  id : String
  project_id : String
  title : String
  description : Option String
  status : TaskStatus
  parent_workspace_id : Option String
  shared_task_id : Option String
  linear_issue_id : Option String
  linear_url : Option String
  linear_labels : Option String
  created_at : String
  updated_at : String
  has_in_progress_attempt : Bool
  last_attempt_failed : Bool
  executor : String
  pr_url : Option String
  pr_status : Option String
  pr_is_draft : Option Bool
  pr_review_decision : Option String
  pr_checks_status : Option String
  pr_has_conflicts : Option Bool
deriving DecidableEq, Repr

/-- `Task::effective_status` from `src/state/tasks.rs` lines 118-132:
consult the locally stored PR fields; `"merged"` → Done, `"closed"` →
Cancelled, `"open"` and not draft → Inreview; anything else falls
through to the stored status. -/
def Task.effective_status (t : Task) : TaskStatus :=
  match t.pr_status with
  | some pr_status =>
    if pr_status = "merged" then TaskStatus.Done
    else if pr_status = "closed" then TaskStatus.Cancelled
    else if pr_status = "open" then
      if t.pr_is_draft ≠ some true then TaskStatus.Inreview
      else t.status
    else t.status
  | none => t.status

/-- `Task::effective_status_with_pr` from `src/state/tasks.rs` lines
134-183.  Early `return`s of the Rust code are modelled with
intermediate `Option TaskStatus` values: `some st` means the priority
level returned `st`, `none` means control fell through to the next
level. -/
def Task.effective_status_with_pr (t : Task) (branch_pr : Option BranchPrInfo)
    (has_worktree : Bool) (linear_status : Option LinearIssueStatus) : TaskStatus :=
  -- Priority 1: live fetched PR status
  let live : Option TaskStatus :=
    match branch_pr with
    | some pr =>
      if pr.state = "MERGED" then some TaskStatus.Done
      else if pr.state = "CLOSED" then some TaskStatus.Cancelled
      else if pr.state = "OPEN" then
        if !pr.is_draft then some TaskStatus.Inreview
        else if has_worktree then some TaskStatus.Inprogress
        else none
      else none
    | none => none
  match live with
  | some st => st
  | none =>
    -- Priority 2: stored PR status
    if t.pr_status.isSome then t.effective_status
    else
      -- Priority 3: Linear terminal states override worktree
      let terminal : Option TaskStatus :=
        match linear_status with
        | some linear =>
          if linear.state_type = "completed" then some TaskStatus.Done
          else if linear.state_type = "canceled" then some TaskStatus.Cancelled
          else none
        | none => none
      match terminal with
      | some st => st
      | none =>
        -- Priority 4: worktree presence
        if has_worktree then TaskStatus.Inprogress
        else
          -- Priority 5: Linear non-terminal status
          match linear_status with
          | some linear => TaskStatus.from_linear_state_type linear.state_type
          -- Priority 6: local stored status
          | none => t.status

/-- Thresholds from `src/external/claude_activity.rs` lines 14-15. -/
def THINKING_THRESHOLD_SECS : Nat := 5

/-- `WAITING_THRESHOLD_SECS` from `src/external/claude_activity.rs` line 15. -/
def WAITING_THRESHOLD_SECS : Nat := 120

/-- `ClaudeActivityState` from `src/external/zellij.rs`. -/
inductive ClaudeActivityState where
  | Unknown
  | Idle
  | Thinking
  | WaitingForUser
deriving DecidableEq, Repr

/-- `ZellijSession` from `src/external/zellij.rs`. -/
structure ZellijSession where
  name : String
  is_current : Bool
  is_dead : Bool
  needs_attention : Bool
  claude_activity : ClaudeActivityState
  context_percentage : Option Rat
deriving DecidableEq, Repr

/-- `ClaudeStatusFile` from `src/external/claude_activity.rs` lines 17-33. -/
structure ClaudeStatusFile where
  working_dir : String
  session_id : Option String
  input_tokens : Option Nat
  output_tokens : Option Nat
  used_percentage : Option Rat
  api_duration_ms : Option Nat
  timestamp : Nat
deriving DecidableEq, Repr

/-- `ActivityResult` from `src/external/claude_activity.rs` lines 36-40. -/
structure ActivityResult where
  state : ClaudeActivityState
  context_percentage : Option Rat
deriving DecidableEq, Repr

/-- `ClaudeActivityTracker::determine_state` from
`src/external/claude_activity.rs` lines 112-146.  `last_update_times` is
the tracker's map of last file-change instants; `instant_now` is the
monotonic clock reading at which `elapsed()` is taken; `sys_now` is
`SystemTime::now().duration_since(UNIX_EPOCH)` in seconds (`unwrap_or(0)`
already applied).  `now.saturating_sub(status.timestamp)` is `Nat`
subtraction. -/
def determine_state (last_update_times : String → Option Nat)
    (instant_now sys_now : Nat) (status : ClaudeStatusFile) : ActivityResult :=
  let state :=
    match last_update_times status.working_dir with
    | some last_update =>
      let elapsed := instant_now - last_update
      if elapsed < THINKING_THRESHOLD_SECS then ClaudeActivityState.Thinking
      else if elapsed < WAITING_THRESHOLD_SECS then ClaudeActivityState.WaitingForUser
      else ClaudeActivityState.Idle
    | none =>
      let age_secs := sys_now - status.timestamp
      if age_secs < WAITING_THRESHOLD_SECS then ClaudeActivityState.WaitingForUser
      else ClaudeActivityState.Idle
  { state := state, context_percentage := status.used_percentage }

/-- Executable contiguous-sublist test on character lists, modelling Rust
`str::contains(&str)` (UTF-8 is self-synchronizing, so byte-substring
containment of valid strings coincides with character-list infix). -/
def contains_sublist (needle : List Char) : List Char → Bool
  | [] => needle.isPrefixOf []
  | c :: rest => needle.isPrefixOf (c :: rest) || contains_sublist needle rest

/-- Rust `str::split(sep)` as a function on character lists: the list of
separator-delimited fields, always nonempty (an empty string yields one
empty field, matching `"".split('/')`). -/
def split_on_char (sep : Char) : List Char → List (List Char)
  | [] => [[]]
  | c :: rest =>
    if c = sep then [] :: split_on_char sep rest
    else
      match split_on_char sep rest with
      | [] => [[c]]
      | h :: t => (c :: h) :: t

/-- Rust `str::to_lowercase` as a function to character lists, one
`Char.toLower` per character (the two agree on ASCII input, the domain
of branch names and worktree paths). -/
def to_lower_chars (s : String) : List Char :=
  s.toList.map Char.toLower

/-- `ClaudeActivityTracker::session_matches_working_dir` from
`src/external/claude_activity.rs` lines 95-110.  Rust
`working_dir.split('/').next_back()` is the last element of
`split_on_char '/'`; string comparison and containment are performed on
the lowered character lists. -/
def session_matches_working_dir (session_name working_dir : String) : Bool :=
  let normalized_session := to_lower_chars session_name
  let normalized_dir := to_lower_chars working_dir
  match (split_on_char '/' working_dir.toList).getLast? with
  | some last_component =>
    if last_component.map Char.toLower = normalized_session then true
    else contains_sublist normalized_session normalized_dir
  | none => contains_sublist normalized_session normalized_dir

/-- One directory entry as seen by
`ClaudeActivityTracker::get_activity_for_session`
(`src/external/claude_activity.rs` lines 66-93): whether its path has a
`.json` extension, and the combined result of `fs::read_to_string` plus
`serde_json::from_str` (`none` = unreadable or unparseable). -/
structure DirEntry where
  has_json_ext : Bool
  parsed : Option ClaudeStatusFile
deriving DecidableEq, Repr

/-- The loop body of `get_activity_for_session`: scan the entries in
order, skip entries without the `.json` extension, unreadable or
unparseable entries, and entries whose `working_dir` does not match the
session name; return `determine_state` on the first match, and
`(Unknown, None)` when no entry matches. -/
def scan_entries (last_update_times : String → Option Nat)
    (instant_now sys_now : Nat) (session_name : String) :
    List DirEntry → ActivityResult
  | [] => { state := ClaudeActivityState.Unknown, context_percentage := none }
  | e :: rest =>
    match e.parsed with
    | some status =>
      if e.has_json_ext ∧ session_matches_working_dir session_name status.working_dir then
        determine_state last_update_times instant_now sys_now status
      else scan_entries last_update_times instant_now sys_now session_name rest
    | none => scan_entries last_update_times instant_now sys_now session_name rest

/-- `ClaudeActivityTracker::get_activity_for_session` from
`src/external/claude_activity.rs` lines 66-93.  `dir = none` models
`fs::read_dir` failing (unreadable state directory); `dir = some entries`
models the successfully enumerated entries in iteration order
(`entries.flatten()` has already dropped erroneous `DirEntry` results). -/
def get_activity_for_session (last_update_times : String → Option Nat)
    (instant_now sys_now : Nat) (dir : Option (List DirEntry))
    (session_name : String) : ActivityResult :=
  match dir with
  | none => { state := ClaudeActivityState.Unknown, context_percentage := none }
  | some entries => scan_entries last_update_times instant_now sys_now session_name entries

/-- Association-list model of `HashMap<String, V>`: key containment. -/
def mapContainsKey {α : Type} (k : String) (m : List (String × α)) : Bool :=
  m.any (fun p => p.1 = k)

/-- Association-list model of `HashMap<String, V>`: `get`. -/
def mapGet {α : Type} (k : String) (m : List (String × α)) : Option α :=
  (m.find? (fun p => p.1 = k)).map Prod.snd

/-- Association-list model of `HashMap<String, V>`: replacing `insert`. -/
def mapInsert {α : Type} (k : String) (v : α) (m : List (String × α)) :
    List (String × α) :=
  (k, v) :: m.filter (fun p => ¬ p.1 = k)

/-- Association-list model of `HashMap<String, V>`: `remove`. -/
def mapErase {α : Type} (k : String) (m : List (String × α)) : List (String × α) :=
  m.filter (fun p => ¬ p.1 = k)

/-- `NO_PR_CACHE_TTL_SECS` from `src/state/worktrees.rs` line 7. -/
def NO_PR_CACHE_TTL_SECS : Nat := 120

/-- `WorktreesState` from `src/state/worktrees.rs` lines 9-17.  The
`Instant` stored in `no_pr_cache` is a `Nat` reading of the monotonic
clock. -/
structure WorktreesState where
  worktrees : List WorktreeInfo
  selected_index : Nat
  loading : Bool
  error : Option String
  branch_prs : List (String × BranchPrInfo)
  no_pr_cache : List (String × Nat)
deriving Repr

namespace WorktreesState

/-- `WorktreesState::new` from `src/state/worktrees.rs` lines 20-29. -/
def new : WorktreesState :=
  { worktrees := [], selected_index := 0, loading := false, error := none,
    branch_prs := [], no_pr_cache := [] }

/-- `WorktreesState::set_branch_pr` from `src/state/worktrees.rs` lines
35-39: evict the branch from the no-PR cache, then store the PR. -/
def set_branch_pr (s : WorktreesState) (branch : String) (pr_info : BranchPrInfo) :
    WorktreesState :=
  { s with no_pr_cache := mapErase branch s.no_pr_cache,
           branch_prs := mapInsert branch pr_info s.branch_prs }

/-- `WorktreesState::clear_branch_pr` from `src/state/worktrees.rs` lines 41-43. -/
def clear_branch_pr (s : WorktreesState) (branch : String) : WorktreesState :=
  { s with branch_prs := mapErase branch s.branch_prs }

/-- `WorktreesState::mark_no_pr` from `src/state/worktrees.rs` lines 46-48:
record `Instant::now()` (the reading `now`) for the branch. -/
def mark_no_pr (s : WorktreesState) (branch : String) (now : Nat) : WorktreesState :=
  { s with no_pr_cache := mapInsert branch now s.no_pr_cache }

/-- `WorktreesState::is_cached_no_pr` from `src/state/worktrees.rs` lines
51-57, at monotonic-clock reading `now` (so `checked_at.elapsed()` is
`now - checked_at`). -/
def is_cached_no_pr (s : WorktreesState) (branch : String) (now : Nat) : Bool :=
  match mapGet branch s.no_pr_cache with
  | some checked_at => now - checked_at < NO_PR_CACHE_TTL_SECS
  | none => false

/-- `WorktreesState::branches_needing_pr_lookup` from
`src/state/worktrees.rs` lines 60-68. -/
def branches_needing_pr_lookup (s : WorktreesState) (now : Nat) : List String :=
  (s.worktrees.filter (fun wt =>
    ¬ mapContainsKey wt.branch s.branch_prs ∧ ¬ s.is_cached_no_pr wt.branch now)).map
    (fun wt => wt.branch)

/-- `WorktreesState::cleanup_no_pr_cache` from `src/state/worktrees.rs`
lines 71-74. -/
def cleanup_no_pr_cache (s : WorktreesState) (now : Nat) : WorktreesState :=
  { s with no_pr_cache :=
      s.no_pr_cache.filter (fun p => now - p.2 < NO_PR_CACHE_TTL_SECS) }

/-- `WorktreesState::clear_no_pr_cache` from `src/state/worktrees.rs`
lines 77-79. -/
def clear_no_pr_cache (s : WorktreesState) : WorktreesState :=
  { s with no_pr_cache := [] }

end WorktreesState

/-- `SessionsState` from `src/state/sessions.rs` lines 4-8. -/
structure SessionsState where
  sessions : List ZellijSession
  loading : Bool
  error : Option String
deriving Repr

/-- `SessionsState::set_sessions` from `src/state/sessions.rs` lines
19-29: for each incoming session, copy `claude_activity` and
`context_percentage` from the first previously stored session of the
same name (if any), then replace the stored list and clear the error. -/
def SessionsState.set_sessions (s : SessionsState)
    (new_sessions : List ZellijSession) : SessionsState :=
  let merged := new_sessions.map (fun ns =>
    match s.sessions.find? (fun x => x.name = ns.name) with
    | some existing =>
      { ns with claude_activity := existing.claude_activity,
                context_percentage := existing.context_percentage }
    | none => ns)
  { s with sessions := merged, error := none }

/-! ## Helper lemmas and concrete fixtures -/

theorem mapContainsKey_iff {α : Type} (k : String) (m : List (String × α)) :
    mapContainsKey k m = true ↔ ∃ p ∈ m, p.1 = k := by
  simp [mapContainsKey]

theorem isPrefixOf_eq_true_iff (n h : List Char) : n.isPrefixOf h = true ↔ n <+: h := by
  induction n generalizing h with
  | nil => simp
  | cons a as ih =>
    cases h with
    | nil => simp
    | cons b bs => simp [List.isPrefixOf_cons₂, List.cons_prefix_cons, ih]

theorem contains_sublist_eq_true_iff (n h : List Char) :
    contains_sublist n h = true ↔ n <:+: h := by
  induction h with
  | nil => simp [contains_sublist, isPrefixOf_eq_true_iff, List.prefix_nil]
  | cons c rest ih =>
    simp only [contains_sublist, Bool.or_eq_true, ih, isPrefixOf_eq_true_iff,
      List.infix_cons_iff]

/-- Task fixture: status `st`, stored PR status `prs`, stored draft flag. -/
def mkTask (st : TaskStatus) (prs : Option String) (draft : Option Bool) : Task :=
  { id := "t1", project_id := "p1", title := "Test Task", description := none,
    status := st, parent_workspace_id := none, shared_task_id := none,
    linear_issue_id := none, linear_url := none, linear_labels := none,
    created_at := "2024-01-01", updated_at := "2024-01-01",
    has_in_progress_attempt := false, last_attempt_failed := false,
    executor := "", pr_url := none, pr_status := prs, pr_is_draft := draft,
    pr_review_decision := none, pr_checks_status := none, pr_has_conflicts := none }

/-- Live-PR fixture: state `st`, draft flag `draft`. -/
def mkPr (st : String) (draft : Bool) : BranchPrInfo :=
  { number := 1, url := "https://example.com/pr/1", state := st, is_draft := draft,
    review_decision := none, status_check_rollup := none, mergeable := none,
    reviews := [] }

/-! ## C2: PR-state mapping at the top of the precedence -/

/-- C2: for every task with live PR info, `MERGED` yields Done, `CLOSED`
yields Cancelled, `OPEN` and not draft yields InReview, and `OPEN` +
draft + worktree yields InProgress, regardless of the locally stored
status, stored PR fields and issue-tracker status; with no live PR info
the stored fields map the same way: `"merged"` → Done, `"closed"` →
Cancelled, `"open"` with `pr_is_draft ≠ some true` → InReview. -/
theorem effective_status_pr_state_mapping (t : Task) (pr : BranchPrInfo) (hw : Bool)
    (linear : Option LinearIssueStatus) :
    (pr.state = "MERGED" →
      t.effective_status_with_pr (some pr) hw linear = TaskStatus.Done) ∧
    (pr.state = "CLOSED" →
      t.effective_status_with_pr (some pr) hw linear = TaskStatus.Cancelled) ∧
    (pr.state = "OPEN" → pr.is_draft = false →
      t.effective_status_with_pr (some pr) hw linear = TaskStatus.Inreview) ∧
    (pr.state = "OPEN" → pr.is_draft = true → hw = true →
      t.effective_status_with_pr (some pr) hw linear = TaskStatus.Inprogress) ∧
    (t.pr_status = some "merged" →
      t.effective_status_with_pr none hw linear = TaskStatus.Done) ∧
    (t.pr_status = some "closed" →
      t.effective_status_with_pr none hw linear = TaskStatus.Cancelled) ∧
    (t.pr_status = some "open" → t.pr_is_draft ≠ some true →
      t.effective_status_with_pr none hw linear = TaskStatus.Inreview) := by
  refine ⟨fun h1 => ?_, fun h1 => ?_, fun h1 h2 => ?_, fun h1 h2 h3 => ?_,
    fun h1 => ?_, fun h1 => ?_, fun h1 h2 => ?_⟩ <;>
    simp [Task.effective_status_with_pr, Task.effective_status, h1]
  · simp [h2]
  · simp [h2, h3]
  · simp [h2]

/-- Witness for C2: each hypothesis discharged at concrete inputs. -/
theorem effective_status_pr_state_mapping_witness :
    ((mkTask TaskStatus.Backlog none none).effective_status_with_pr
        (some (mkPr "MERGED" false)) false none = TaskStatus.Done) ∧
    ((mkTask TaskStatus.Backlog none none).effective_status_with_pr
        (some (mkPr "CLOSED" false)) false none = TaskStatus.Cancelled) ∧
    ((mkTask TaskStatus.Backlog none none).effective_status_with_pr
        (some (mkPr "OPEN" false)) false none = TaskStatus.Inreview) ∧
    ((mkTask TaskStatus.Backlog none none).effective_status_with_pr
        (some (mkPr "OPEN" true)) true none = TaskStatus.Inprogress) ∧
    ((mkTask TaskStatus.Inprogress (some "merged") none).effective_status_with_pr
        none false none = TaskStatus.Done) ∧
    ((mkTask TaskStatus.Inprogress (some "closed") none).effective_status_with_pr
        none false none = TaskStatus.Cancelled) ∧
    ((mkTask TaskStatus.Inprogress (some "open") (some false)).effective_status_with_pr
        none false none = TaskStatus.Inreview) :=
  ⟨(effective_status_pr_state_mapping (mkTask TaskStatus.Backlog none none)
      (mkPr "MERGED" false) false none).1 rfl,
   (effective_status_pr_state_mapping (mkTask TaskStatus.Backlog none none)
      (mkPr "CLOSED" false) false none).2.1 rfl,
   (effective_status_pr_state_mapping (mkTask TaskStatus.Backlog none none)
      (mkPr "OPEN" false) false none).2.2.1 rfl rfl,
   (effective_status_pr_state_mapping (mkTask TaskStatus.Backlog none none)
      (mkPr "OPEN" true) true none).2.2.2.1 rfl rfl rfl,
   (effective_status_pr_state_mapping (mkTask TaskStatus.Inprogress (some "merged") none)
      (mkPr "OPEN" true) false none).2.2.2.2.1 rfl,
   (effective_status_pr_state_mapping (mkTask TaskStatus.Inprogress (some "closed") none)
      (mkPr "OPEN" true) false none).2.2.2.2.2.1 rfl,
   (effective_status_pr_state_mapping (mkTask TaskStatus.Inprogress (some "open") (some false))
      (mkPr "OPEN" true) false none).2.2.2.2.2.2 rfl (by decide)⟩

/-! ## C1: when the stored PR fields are consulted -/

/-- C1 counterexample, refuting both halves of the claim.  First: the
claim predicts that a live `OPEN` + draft PR with no worktree makes
resolution skip the stored PR fields and fall through to rules 3-6
(here: rule 6, the local status `Backlog`); the code instead consults
the stored `pr_status = "merged"` and returns Done.  Second: the claim
predicts that a stored `pr_status = "open"` with `pr_is_draft = true`
and no live PR falls through to rules 3-6 (here: rule 4, the worktree,
so InProgress); the code instead stops at the stored-PR level and
returns the local status `Backlog`. -/
theorem live_open_draft_counterexample :
    ((mkTask TaskStatus.Backlog (some "merged") none).effective_status_with_pr
        (some (mkPr "OPEN" true)) false none = TaskStatus.Done ∧
      TaskStatus.Done ≠ TaskStatus.Backlog) ∧
    ((mkTask TaskStatus.Backlog (some "open") (some true)).effective_status_with_pr
        none true none = TaskStatus.Backlog ∧
      TaskStatus.Backlog ≠ TaskStatus.Inprogress) := by
  decide

/-- C1 amended: a live `OPEN` + draft PR with no worktree falls through
to the stored-PR level (rule 2) and below — resolution proceeds exactly
as if there were no live PR info; and when there is no live PR info and
the stored `pr_status` is set but matches none of merged / closed /
open-and-not-draft, resolution stops at the stored-PR level and returns
the task's locally stored status (rules 3-6 are skipped). -/
theorem stored_pr_consultation (t : Task) (pr : BranchPrInfo) (hw : Bool)
    (linear : Option LinearIssueStatus) (s : String) :
    (pr.state = "OPEN" → pr.is_draft = true →
      t.effective_status_with_pr (some pr) false linear =
        t.effective_status_with_pr none false linear) ∧
    (t.pr_status = some s → s ≠ "merged" → s ≠ "closed" →
      (s = "open" → t.pr_is_draft = some true) →
      t.effective_status_with_pr none hw linear = t.status) := by
  constructor
  · intro h1 h2
    simp [Task.effective_status_with_pr, h1, h2]
  · intro h1 h2 h3 h4
    by_cases h5 : s = "open"
    · simp [Task.effective_status_with_pr, Task.effective_status, h1, h2, h3, h5, h4 h5]
    · simp [Task.effective_status_with_pr, Task.effective_status, h1, h2, h3, h5]

/-- Witness for the amended C1 at concrete inputs: a live draft PR with a
stored `pr_status = "merged"` resolves as without live info (to Done),
and a stored draft-open PR with a worktree still returns the local
status. -/
theorem stored_pr_consultation_witness :
    ((mkTask TaskStatus.Backlog (some "merged") none).effective_status_with_pr
        (some (mkPr "OPEN" true)) false none =
      (mkTask TaskStatus.Backlog (some "merged") none).effective_status_with_pr
        none false none) ∧
    ((mkTask TaskStatus.Backlog (some "open") (some true)).effective_status_with_pr
        none true none = TaskStatus.Backlog) :=
  ⟨(stored_pr_consultation (mkTask TaskStatus.Backlog (some "merged") none)
      (mkPr "OPEN" true) false none "merged").1 rfl rfl,
   (stored_pr_consultation (mkTask TaskStatus.Backlog (some "open") (some true))
      (mkPr "OPEN" true) true none "open").2 rfl (by decide) (by decide)
      (fun _ => rfl)⟩

/-! ## C3: lower-precedence resolution -/

/-- C3 counterexample: for a linked issue with `state_type = "cancelled"`
(double l) and no worktree, the claim's rule-5 mapping predicts Backlog
("any other value → Backlog"), but `from_linear_state_type` maps
`"cancelled"` to Cancelled. -/
theorem linear_cancelled_counterexample :
    (mkTask TaskStatus.Todo none none).effective_status_with_pr none false
        (some { identifier := "VIB-1", state_type := "cancelled",
                state_name := "Cancelled" }) = TaskStatus.Cancelled ∧
    TaskStatus.Cancelled ≠ TaskStatus.Backlog := by
  decide

/-- C3 amended: with no live PR info and no stored `pr_status`, a linked
issue with `state_type` `"completed"` yields Done and `"canceled"`
yields Cancelled even when a worktree exists; otherwise an existing
worktree yields InProgress; otherwise the issue's `state_type` maps
backlog → Backlog, unstarted → Todo, started → InProgress, cancelled
(double l) → Cancelled, and any other value → Backlog; with no linked
issue and no worktree the locally stored status is returned. -/
theorem lower_precedence_resolution (t : Task) (hw : Bool) (linear : LinearIssueStatus)
    (hpr : t.pr_status = none) :
    (linear.state_type = "completed" →
      t.effective_status_with_pr none hw (some linear) = TaskStatus.Done) ∧
    (linear.state_type = "canceled" →
      t.effective_status_with_pr none hw (some linear) = TaskStatus.Cancelled) ∧
    (linear.state_type ≠ "completed" → linear.state_type ≠ "canceled" →
      t.effective_status_with_pr none true (some linear) = TaskStatus.Inprogress) ∧
    (t.effective_status_with_pr none true none = TaskStatus.Inprogress) ∧
    (linear.state_type ≠ "completed" → linear.state_type ≠ "canceled" →
      t.effective_status_with_pr none false (some linear) =
        (if linear.state_type = "backlog" then TaskStatus.Backlog
         else if linear.state_type = "unstarted" then TaskStatus.Todo
         else if linear.state_type = "started" then TaskStatus.Inprogress
         else if linear.state_type = "cancelled" then TaskStatus.Cancelled
         else TaskStatus.Backlog)) ∧
    (t.effective_status_with_pr none false none = t.status) := by
  refine ⟨fun h1 => ?_, fun h1 => ?_, fun h1 h2 => ?_, ?_, fun h1 h2 => ?_, ?_⟩ <;>
    simp [Task.effective_status_with_pr, TaskStatus.from_linear_state_type, hpr]
  · simp [h1]
  · simp [h1]
  · simp [h1, h2]
  · simp [h1, h2]

/-- Witness for the amended C3 at concrete inputs: an issue in
`"completed"` beats a worktree, a worktree beats `"unstarted"`, rule 5
maps `"unstarted"` to Todo, and with no signals the local status
survives. -/
theorem lower_precedence_resolution_witness :
    ((mkTask TaskStatus.Backlog none none).effective_status_with_pr none true
        (some { identifier := "VIB-6", state_type := "completed",
                state_name := "Done" }) = TaskStatus.Done) ∧
    ((mkTask TaskStatus.Backlog none none).effective_status_with_pr none true
        (some { identifier := "VIB-6", state_type := "unstarted",
                state_name := "Todo" }) = TaskStatus.Inprogress) ∧
    ((mkTask TaskStatus.Backlog none none).effective_status_with_pr none false
        (some { identifier := "VIB-6", state_type := "unstarted",
                state_name := "Todo" }) = TaskStatus.Todo) ∧
    ((mkTask TaskStatus.Done none none).effective_status_with_pr none false none =
      TaskStatus.Done) :=
  ⟨(lower_precedence_resolution (mkTask TaskStatus.Backlog none none) true
      { identifier := "VIB-6", state_type := "completed", state_name := "Done" }
      rfl).1 rfl,
   (lower_precedence_resolution (mkTask TaskStatus.Backlog none none) true
      { identifier := "VIB-6", state_type := "unstarted", state_name := "Todo" }
      rfl).2.2.1 (by decide) (by decide),
   by
    have h := (lower_precedence_resolution (mkTask TaskStatus.Backlog none none) false
      { identifier := "VIB-6", state_type := "unstarted", state_name := "Todo" }
      rfl).2.2.2.2.1 (by decide) (by decide)
    simpa using h,
   (lower_precedence_resolution (mkTask TaskStatus.Done none none) false
      { identifier := "VIB-6", state_type := "unstarted", state_name := "Todo" }
      rfl).2.2.2.2.2⟩

/-! ## C4 and C10: determine_state classification and totality -/

/-- Update-times fixture: one recorded instant (at second 100) for the
working directory `/test/project`. -/
def lut_test : String → Option Nat :=
  fun d => if d = "/test/project" then some 100 else none

/-- Status-record fixture for `/test/project`, written at second 100,
with 75.5 % context used. -/
def status_test : ClaudeStatusFile :=
  { working_dir := "/test/project", session_id := none, input_tokens := some 100,
    output_tokens := some 50, used_percentage := some (151 / 2 : Rat),
    api_duration_ms := some 1000, timestamp := 100 }

/-- C4: with a recorded update event, elapsed < 5 s yields Thinking,
5 s ≤ elapsed < 120 s yields WaitingForUser, elapsed ≥ 120 s yields
Idle; with no recorded event, a record age < 120 s yields WaitingForUser
and ≥ 120 s yields Idle; and the returned `context_percentage` always
equals the record's `used_percentage`. -/
theorem determine_state_classification (lut : String → Option Nat)
    (inow snow : Nat) (st : ClaudeStatusFile) (last : Nat) :
    (lut st.working_dir = some last →
      ((inow - last < 5 →
          (determine_state lut inow snow st).state = ClaudeActivityState.Thinking) ∧
       (5 ≤ inow - last → inow - last < 120 →
          (determine_state lut inow snow st).state = ClaudeActivityState.WaitingForUser) ∧
       (120 ≤ inow - last →
          (determine_state lut inow snow st).state = ClaudeActivityState.Idle))) ∧
    (lut st.working_dir = none →
      ((snow - st.timestamp < 120 →
          (determine_state lut inow snow st).state = ClaudeActivityState.WaitingForUser) ∧
       (120 ≤ snow - st.timestamp →
          (determine_state lut inow snow st).state = ClaudeActivityState.Idle))) ∧
    (determine_state lut inow snow st).context_percentage = st.used_percentage := by
  refine ⟨fun h => ⟨fun h1 => ?_, fun h1 h2 => ?_, fun h1 => ?_⟩,
    fun h => ⟨fun h1 => ?_, fun h1 => ?_⟩, ?_⟩
  · simp [determine_state, THINKING_THRESHOLD_SECS, h, h1]
  · have h3 : ¬ (inow - last < 5) := by omega
    simp [determine_state, THINKING_THRESHOLD_SECS, WAITING_THRESHOLD_SECS, h, h3, h2]
  · have h3 : ¬ (inow - last < 5) := by omega
    have h4 : ¬ (inow - last < 120) := by omega
    simp [determine_state, THINKING_THRESHOLD_SECS, WAITING_THRESHOLD_SECS, h, h3, h4]
  · simp [determine_state, WAITING_THRESHOLD_SECS, h, h1]
  · have h2 : ¬ (snow - st.timestamp < 120) := by omega
    simp [determine_state, WAITING_THRESHOLD_SECS, h, h2]
  · simp [determine_state]

/-- Witness for C4: concrete classifications in each regime, and the
copied context percentage. -/
theorem determine_state_classification_witness :
    (lut_test "/test/project" = some 100 ∧
      (determine_state lut_test 102 0 status_test).state = ClaudeActivityState.Thinking) ∧
    (determine_state lut_test 110 0 status_test).state = ClaudeActivityState.WaitingForUser ∧
    (determine_state lut_test 500 0 status_test).state = ClaudeActivityState.Idle ∧
    (determine_state (fun _ => none) 0 130 status_test).state =
      ClaudeActivityState.WaitingForUser ∧
    (determine_state (fun _ => none) 0 300 status_test).state = ClaudeActivityState.Idle ∧
    (determine_state lut_test 102 0 status_test).context_percentage =
      some (151 / 2 : Rat) :=
  ⟨⟨by decide,
    ((determine_state_classification lut_test 102 0 status_test 100).1
      (by decide)).1 (by decide)⟩,
   ((determine_state_classification lut_test 110 0 status_test 100).1
      (by decide)).2.1 (by decide) (by decide),
   ((determine_state_classification lut_test 500 0 status_test 100).1
      (by decide)).2.2 (by decide),
   ((determine_state_classification (fun _ => none) 0 130 status_test 0).2.1
      rfl).1 (by decide),
   ((determine_state_classification (fun _ => none) 0 300 status_test 0).2.1
      rfl).2 (by decide),
   (determine_state_classification lut_test 102 0 status_test 0).2.2⟩

/-- C10: with no recorded update event and a record timestamp in the
future, the fallback age `now.saturating_sub(timestamp)` saturates to
zero (Nat subtraction, exactly `u64::saturating_sub`) and the record is
classified WaitingForUser.  The Lean model is a total function, as is
the Rust code: the fallback uses `unwrap_or(0)` and `saturating_sub`,
so no timestamp value can make it panic. -/
theorem determine_state_future_timestamp (lut : String → Option Nat)
    (inow snow : Nat) (st : ClaudeStatusFile)
    (h1 : lut st.working_dir = none) (h2 : snow < st.timestamp) :
    snow - st.timestamp = 0 ∧
    (determine_state lut inow snow st).state = ClaudeActivityState.WaitingForUser := by
  have hz : snow - st.timestamp = 0 := by omega
  exact ⟨hz, by simp [determine_state, WAITING_THRESHOLD_SECS, h1, hz]⟩

/-- Witness for C10: a record stamped at second 1000 read at system time
0 is WaitingForUser. -/
theorem determine_state_future_timestamp_witness :
    0 - ({ status_test with timestamp := 1000 } : ClaudeStatusFile).timestamp = 0 ∧
    (determine_state (fun _ => none) 0 0
      { status_test with timestamp := 1000 }).state =
        ClaudeActivityState.WaitingForUser :=
  determine_state_future_timestamp (fun _ => none) 0 0
    { status_test with timestamp := 1000 } rfl (by decide)

/-! ## C5: branches_needing_pr_lookup -/

theorem mapContainsKey_mapInsert {α : Type} (k k' : String) (v : α)
    (m : List (String × α)) :
    mapContainsKey k (mapInsert k' v m) = true ↔ k = k' ∨ mapContainsKey k m = true := by
  constructor
  · intro h
    obtain ⟨p, hp, hk⟩ := (mapContainsKey_iff k (mapInsert k' v m)).1 h
    rcases List.mem_cons.1 hp with hpe | hp'
    · left; rw [← hk, hpe]
    · exact Or.inr ((mapContainsKey_iff k m).2
        ⟨p, (List.mem_filter.1 hp').1, hk⟩)
  · intro h
    rw [mapContainsKey_iff]
    rcases h with heq | h
    · subst heq; exact ⟨(k, v), List.mem_cons_self _ _, rfl⟩
    · obtain ⟨p, hp, hk⟩ := (mapContainsKey_iff k m).1 h
      by_cases hpk : p.1 = k'
      · exact ⟨(k', v), List.mem_cons_self _ _, by rw [← hk, hpk]⟩
      · exact ⟨p, List.mem_cons_of_mem _
          (List.mem_filter.2 ⟨hp, by simpa using hpk⟩), hk⟩

theorem mapContainsKey_mapErase {α : Type} (k k' : String) (m : List (String × α)) :
    mapContainsKey k (mapErase k' m) = true ↔ k ≠ k' ∧ mapContainsKey k m = true := by
  constructor
  · intro h
    obtain ⟨p, hp, hk⟩ := (mapContainsKey_iff k (mapErase k' m)).1 h
    have hf := List.mem_filter.1 hp
    have hne : ¬ p.1 = k' := by simpa using hf.2
    exact ⟨by rw [← hk]; exact hne, (mapContainsKey_iff k m).2 ⟨p, hf.1, hk⟩⟩
  · rintro ⟨hne, h⟩
    obtain ⟨p, hp, hk⟩ := (mapContainsKey_iff k m).1 h
    exact (mapContainsKey_iff k (mapErase k' m)).2
      ⟨p, List.mem_filter.2 ⟨hp, by simpa [hk] using hne⟩, hk⟩

theorem mapContainsKey_filter {α : Type} (k : String) (p : String × α → Bool)
    (m : List (String × α)) (h : mapContainsKey k (m.filter p) = true) :
    mapContainsKey k m = true := by
  rw [mapContainsKey_iff] at h ⊢
  obtain ⟨q, hq, hk⟩ := h
  exact ⟨q, (List.mem_filter.1 hq).1, hk⟩

theorem is_cached_no_pr_eq_false_iff (s : WorktreesState) (b : String) (now : Nat) :
    s.is_cached_no_pr b now = false ↔
      ∀ checked_at, mapGet b s.no_pr_cache = some checked_at →
        NO_PR_CACHE_TTL_SECS ≤ now - checked_at := by
  unfold WorktreesState.is_cached_no_pr
  cases h : mapGet b s.no_pr_cache with
  | none => simp
  | some t => simp [Nat.not_lt]

/-- C5: `branches_needing_pr_lookup` returns exactly the branches of the
stored worktrees that are not keys of the live-PR map and have no no-PR
cache entry younger than the 120 s TTL; in particular it never returns
a branch in the PR map nor one with a fresh no-PR entry. -/
theorem branches_needing_pr_lookup_spec (s : WorktreesState) (now : Nat) (b : String) :
    b ∈ s.branches_needing_pr_lookup now ↔
      (∃ wt ∈ s.worktrees, wt.branch = b) ∧
      mapContainsKey b s.branch_prs = false ∧
      ∀ checked_at, mapGet b s.no_pr_cache = some checked_at →
        NO_PR_CACHE_TTL_SECS ≤ now - checked_at := by
  constructor
  · intro hmem
    simp only [WorktreesState.branches_needing_pr_lookup, List.mem_map,
      List.mem_filter] at hmem
    obtain ⟨wt, ⟨hw, hcond⟩, hb⟩ := hmem
    subst hb
    have hcond' : mapContainsKey wt.branch s.branch_prs = false ∧
        s.is_cached_no_pr wt.branch now = false := by
      simpa [Bool.not_eq_true] using hcond
    exact ⟨⟨wt, hw, rfl⟩, hcond'.1,
      (is_cached_no_pr_eq_false_iff s wt.branch now).1 hcond'.2⟩
  · rintro ⟨⟨wt, hw, rfl⟩, h2, h3⟩
    simp only [WorktreesState.branches_needing_pr_lookup, List.mem_map,
      List.mem_filter]
    refine ⟨wt, ⟨hw, ?_⟩, rfl⟩
    simp [h2, (is_cached_no_pr_eq_false_iff s wt.branch now).2 h3]

/-! ## C6: mutual exclusivity of the PR map and the no-PR cache -/

/-- C6 counterexample: from the empty caches, the call sequence
`set_branch_pr "b" pr; mark_no_pr "b"` leaves `"b"` a key of both
`branch_prs` and the no-PR cache — `mark_no_pr` does not evict the PR
map entry. -/
def s_violation : WorktreesState :=
  (WorktreesState.new.set_branch_pr "b" (mkPr "OPEN" false)).mark_no_pr "b" 0

/-- C6 counterexample theorem: the branch `"b"` is simultaneously a key
of the PR map and of the no-PR cache after a legal call sequence,
contradicting the claimed invariant for arbitrary sequences. -/
theorem pr_cache_violation :
    mapContainsKey "b" s_violation.branch_prs = true ∧
    mapContainsKey "b" s_violation.no_pr_cache = true := by
  decide

/-- States reachable from the empty caches by the five cache operations,
with `mark_no_pr` only invoked for branches not currently in the PR map
(the engine's discipline: absence checks run only for branches returned
by `branches_needing_pr_lookup`). -/
inductive ReachableDisciplined : WorktreesState → Prop where
  | new : ReachableDisciplined WorktreesState.new
  | set_branch_pr (s : WorktreesState) (b : String) (pr : BranchPrInfo) :
      ReachableDisciplined s → ReachableDisciplined (s.set_branch_pr b pr)
  | mark_no_pr (s : WorktreesState) (b : String) (now : Nat) :
      ReachableDisciplined s → mapContainsKey b s.branch_prs = false →
      ReachableDisciplined (s.mark_no_pr b now)
  | clear_branch_pr (s : WorktreesState) (b : String) :
      ReachableDisciplined s → ReachableDisciplined (s.clear_branch_pr b)
  | cleanup_no_pr_cache (s : WorktreesState) (now : Nat) :
      ReachableDisciplined s → ReachableDisciplined (s.cleanup_no_pr_cache now)
  | clear_no_pr_cache (s : WorktreesState) :
      ReachableDisciplined s → ReachableDisciplined s.clear_no_pr_cache

/-- C6 amended: across any sequence of the five cache calls in which
`mark_no_pr` is only invoked for branches not currently in the PR map,
no branch is simultaneously a key of `branch_prs` and of the no-PR
cache; and `set_branch_pr b pr` always removes `b` from the no-PR
cache. -/
theorem pr_cache_mutual_exclusion (s : WorktreesState)
    (h : ReachableDisciplined s) (b : String) (pr : BranchPrInfo) :
    ¬ (mapContainsKey b s.branch_prs = true ∧
       mapContainsKey b s.no_pr_cache = true) ∧
    mapContainsKey b (WorktreesState.set_branch_pr s b pr).no_pr_cache = false := by
  constructor
  · induction h with
    | new => simp [WorktreesState.new, mapContainsKey]
    | set_branch_pr s' b' pr' hs ih =>
      rintro ⟨h1, h2⟩
      rw [WorktreesState.set_branch_pr] at h1 h2
      simp only at h1 h2
      rw [mapContainsKey_mapErase] at h2
      rw [mapContainsKey_mapInsert] at h1
      rcases h1 with h1 | h1
      · exact h2.1 h1
      · exact ih ⟨h1, h2.2⟩
    | mark_no_pr s' b' now hs hb ih =>
      rintro ⟨h1, h2⟩
      rw [WorktreesState.mark_no_pr] at h1 h2
      simp only at h1 h2
      rw [mapContainsKey_mapInsert] at h2
      rcases h2 with h2 | h2
      · subst h2; rw [h1] at hb; cases hb
      · exact ih ⟨h1, h2⟩
    | clear_branch_pr s' b' hs ih =>
      rintro ⟨h1, h2⟩
      rw [WorktreesState.clear_branch_pr] at h1 h2
      simp only at h1 h2
      rw [mapContainsKey_mapErase] at h1
      exact ih ⟨h1.2, h2⟩
    | cleanup_no_pr_cache s' now hs ih =>
      rintro ⟨h1, h2⟩
      rw [WorktreesState.cleanup_no_pr_cache] at h1 h2
      simp only at h1 h2
      exact ih ⟨h1, mapContainsKey_filter _ _ _ h2⟩
    | clear_no_pr_cache s' hs ih =>
      rintro ⟨h1, h2⟩
      rw [WorktreesState.clear_no_pr_cache] at h1 h2
      simp only at h2
      simp [mapContainsKey] at h2
  · rw [WorktreesState.set_branch_pr]
    simp only
    rw [Bool.eq_false_iff]
    intro hc
    exact ((mapContainsKey_mapErase b b s.no_pr_cache).1 hc).1 rfl

/-- Witness for the amended C6 at a concrete reachable state: after
`set_branch_pr "a" pr; mark_no_pr "b"`, the branch `"a"` is not in both
caches, and a further `set_branch_pr "a" pr` leaves `"a"` out of the
no-PR cache. -/
theorem pr_cache_mutual_exclusion_witness :
    (¬ (mapContainsKey "a"
          ((WorktreesState.new.set_branch_pr "a" (mkPr "OPEN" false)).mark_no_pr
            "b" 0).branch_prs = true ∧
        mapContainsKey "a"
          ((WorktreesState.new.set_branch_pr "a" (mkPr "OPEN" false)).mark_no_pr
            "b" 0).no_pr_cache = true)) ∧
    mapContainsKey "a"
      (WorktreesState.set_branch_pr
        ((WorktreesState.new.set_branch_pr "a" (mkPr "OPEN" false)).mark_no_pr "b" 0)
        "a" (mkPr "MERGED" false)).no_pr_cache = false :=
  pr_cache_mutual_exclusion _
    (ReachableDisciplined.mark_no_pr _ "b" 0
      (ReachableDisciplined.set_branch_pr _ "a" (mkPr "OPEN" false)
        ReachableDisciplined.new)
      (by decide))
    "a" (mkPr "MERGED" false)

/-! ## C7: session-to-working-directory matching -/

/-- C7: the match succeeds iff, case-insensitively, the final
`'/'`-separated segment of `working_dir` equals `session_name`, or
`working_dir` contains `session_name` as a contiguous substring
(`List.IsInfix` on the lowered character lists); and the three concrete
examples from the spec. -/
theorem session_matching_spec (sn wd : String) :
    (session_matches_working_dir sn wd = true ↔
      ((split_on_char '/' wd.toList).getLast?.map (List.map Char.toLower) =
        some (to_lower_chars sn) ∨
       to_lower_chars sn <:+: to_lower_chars wd)) ∧
    session_matches_working_dir "feature-branch"
      "/Users/t/worktrees/feature-branch" = true ∧
    session_matches_working_dir "my-feature" "/Users/t/my-feature-worktree" = true ∧
    session_matches_working_dir "other-branch" "/Users/t/feature-branch" = false := by
  refine ⟨?_, by decide, by decide, by decide⟩
  cases h : (split_on_char '/' wd.data).getLast? with
  | none => simp [session_matches_working_dir, h, contains_sublist_eq_true_iff]
  | some lc =>
    by_cases heq : lc.map Char.toLower = to_lower_chars sn <;>
      simp [session_matches_working_dir, h, heq, contains_sublist_eq_true_iff]

/-! ## C8: SessionMerge set_sessions -/

/-- C8 counterexample: an entry of `new_list` with no same-named session
in the previous list is carried over unchanged, not reset to the
defaults: a fresh entry arriving with `claude_activity = Thinking`
keeps Thinking, where the claim demands Unknown. -/
theorem set_sessions_defaults_counterexample :
    ((SessionsState.mk [] false none).set_sessions
        [{ name := "a", is_current := false, is_dead := false,
           needs_attention := false,
           claude_activity := ClaudeActivityState.Thinking,
           context_percentage := none }]).sessions.map
      (fun x => x.claude_activity) = [ClaudeActivityState.Thinking] ∧
    ClaudeActivityState.Thinking ≠ ClaudeActivityState.Unknown := by
  decide

/-- C8 amended: `set_sessions(new_list)` replaces the stored list with
`new_list`, entry by entry: every entry whose name matches some previous
session gets that (first matching) session's `claude_activity` and
`context_percentage` copied forward, every other entry is carried over
unchanged (entries freshly built by the session-list poll carry the
defaults Unknown / None), all other fields are kept, and the error is
cleared. -/
theorem set_sessions_merge (s : SessionsState) (new_sessions : List ZellijSession) :
    List.Forall₂ (fun ns out =>
      out.name = ns.name ∧ out.is_current = ns.is_current ∧
      out.is_dead = ns.is_dead ∧ out.needs_attention = ns.needs_attention ∧
      ((∃ x ∈ s.sessions, x.name = ns.name) →
        ∃ e, s.sessions.find? (fun x => x.name = ns.name) = some e ∧
          out.claude_activity = e.claude_activity ∧
          out.context_percentage = e.context_percentage) ∧
      ((¬ ∃ x ∈ s.sessions, x.name = ns.name) → out = ns))
      new_sessions (s.set_sessions new_sessions).sessions ∧
    (s.set_sessions new_sessions).error = none := by
  refine ⟨?_, rfl⟩
  unfold SessionsState.set_sessions
  simp only
  rw [List.forall₂_map_right_iff, List.forall₂_same]
  intro ns _
  cases hfind : s.sessions.find? (fun x => x.name = ns.name) with
  | some e =>
    have hmem := List.mem_of_find?_eq_some hfind
    have hpe : e.name = ns.name := by simpa using List.find?_some hfind
    exact ⟨rfl, rfl, rfl, rfl, fun _ => ⟨e, rfl, rfl, rfl⟩,
      fun hno => absurd ⟨e, hmem, hpe⟩ hno⟩
  | none =>
    have hnone := List.find?_eq_none.1 hfind
    exact ⟨rfl, rfl, rfl, rfl,
      fun hex => absurd hex (by simpa using hnone),
      fun _ => rfl⟩

/-! ## C9: failure degradation of get_activity_for_session -/

/-- Status-record fixture for a working directory that does not match
the queried session name. -/
def record_nomatch : ClaudeStatusFile :=
  { working_dir := "/other/place", session_id := none, input_tokens := none,
    output_tokens := none, used_percentage := none, api_duration_ms := none,
    timestamp := 0 }

/-- Directory-entry fixture: a well-formed record for a non-matching
working directory. -/
def entry_nomatch : DirEntry :=
  { has_json_ext := true, parsed := some record_nomatch }

/-- Directory-entry fixture: a `.json` file that cannot be read or
parsed. -/
def entry_bad : DirEntry := { has_json_ext := true, parsed := none }

/-- C9: an unreadable status directory yields `(Unknown, None)`; if no
entry's record matches the session name the scan yields
`(Unknown, None)`; and an entry that cannot be read or parsed is
skipped, scanning continuing with the remaining entries. -/
theorem get_activity_failure_degradation (lut : String → Option Nat)
    (inow snow : Nat) (name : String) :
    (get_activity_for_session lut inow snow none name =
      { state := ClaudeActivityState.Unknown, context_percentage := none }) ∧
    (∀ entries : List DirEntry,
      (∀ e ∈ entries, e.has_json_ext = true → ∀ st, e.parsed = some st →
        session_matches_working_dir name st.working_dir = false) →
      get_activity_for_session lut inow snow (some entries) name =
        { state := ClaudeActivityState.Unknown, context_percentage := none }) ∧
    (∀ (bad : DirEntry) (rest : List DirEntry), bad.parsed = none →
      scan_entries lut inow snow name (bad :: rest) =
        scan_entries lut inow snow name rest) := by
  refine ⟨rfl, ?_, ?_⟩
  · intro entries h
    induction entries with
    | nil => rfl
    | cons e rest ih =>
      have hrest : scan_entries lut inow snow name rest =
          { state := ClaudeActivityState.Unknown, context_percentage := none } :=
        ih (fun e' he' => h e' (List.mem_cons_of_mem _ he'))
      show scan_entries lut inow snow name (e :: rest) = _
      cases hp : e.parsed with
      | none => simp [scan_entries, hp, hrest]
      | some st =>
        by_cases hj : e.has_json_ext = true
        · have hm := h e (List.mem_cons_self _ _) hj st hp
          simp [scan_entries, hp, hj, hm, hrest]
        · have hj' : e.has_json_ext = false := by simpa using hj
          simp [scan_entries, hp, hj', hrest]
  · intro bad rest hb
    simp [scan_entries, hb]

/-- Witness for C9: concrete unreadable directory, non-matching entry,
and skipped unparseable entry. -/
theorem get_activity_failure_degradation_witness :
    (get_activity_for_session (fun _ => none) 0 0 none "feature-branch" =
      { state := ClaudeActivityState.Unknown, context_percentage := none }) ∧
    (get_activity_for_session (fun _ => none) 0 0 (some [entry_nomatch])
        "feature-branch" =
      { state := ClaudeActivityState.Unknown, context_percentage := none }) ∧
    (scan_entries (fun _ => none) 0 0 "feature-branch" [entry_bad] =
      scan_entries (fun _ => none) 0 0 "feature-branch" []) :=
  ⟨(get_activity_failure_degradation (fun _ => none) 0 0 "feature-branch").1,
   (get_activity_failure_degradation (fun _ => none) 0 0 "feature-branch").2.1
      [entry_nomatch]
      (by
        intro e he hj st hp
        rw [List.mem_singleton] at he
        subst he
        have hst : record_nomatch = st := by
          simpa [entry_nomatch] using hp
        subst hst
        decide),
   (get_activity_failure_degradation (fun _ => none) 0 0 "feature-branch").2.2
      entry_bad [] rfl⟩

end Vibe
